import Mathlib

/-!
Shallow embedding of the ects node-local control plane:
the Pipeline Synchronizer (`WatchPipelines`), the Kill-Signal Watcher
(`WatchKiller`) and the Kill-Request Emitter (`PostKiller`), translated
from the Go sources `src/unnamed/part_000` (package `pipeline`) and
`src/controllers/pipeline/main.go`.

The coordination store (etcd) is external: snapshot responses, watch
events and store errors are inputs to the embedded functions, and the
side effects of the Go code (queue pushes, log lines, store operations)
are returned as explicit traces.
-/

namespace Ects

/-- The struct `models.Pipeline`, restricted to the fields the embedded code reads:
the identifier and the bound-node list (`Id`, `Nodes`). -/
structure Pipeline where
  id : String
  nodes : List String
deriving Repr, DecidableEq

/-- The Go zero value of `models.Pipeline` (what `var pipeline models.Pipeline`
starts from before `json.Unmarshal` touches it). -/
def Pipeline.zero : Pipeline := ⟨"", []⟩

/-- A value stored in etcd, as seen through `json.Unmarshal` into a
`models.Pipeline` target: either it parses into a `Pipeline`, or parsing
fails and leaves some residue (`Pipeline.zero` when nothing was decoded,
or partially decoded fields, as the Go `json.Unmarshal` leaves whatever it
managed to fill before erroring). -/
inductive StoredValue where
  | valid (p : Pipeline)
  | invalid (residue : Pipeline)
deriving Repr, DecidableEq

/-- The call `json.Unmarshal(v, &pipeline)` as a fallible parse. -/
def unmarshalPipeline : StoredValue → Option Pipeline
  | .valid p => some p
  | .invalid _ => none

/-- Event type constants from `part_000`: `PUT = 1`, `DEL = 2`, `KILL = 3`. -/
def PUT : Nat := 1

/-- Constant `DEL = 2`. -/
def DEL : Nat := 2

/-- Constant `KILL = 3`. -/
def KILL : Nat := 3

/-- The `Event` struct pushed to `scheduler.Instance`. -/
structure Event where
  type : Nat
  pipeline : Pipeline
deriving Repr, DecidableEq

/-- One observable side effect of the watcher loops and the kill handler:
a push onto the scheduler queue, or one of the log statements in the source. -/
inductive Action where
  | pushEvent (e : Event)
  | logUnmarshalError
  | logNodeRegistered (id : String)
  | logPipelineOffline (id : String)
  | logStoreError
deriving Repr, DecidableEq

/-- The Go pattern `var pipeline models.Pipeline; if err := json.Unmarshal(v, &pipeline); err != nil { log.Println(err) }`:
the decoded pipeline (or the residue the failed decode left behind)
together with the log line the failure produces.  Execution continues
either way. -/
def unmarshalInto : StoredValue → Pipeline × List Action
  | .valid p => (p, [])
  | .invalid residue => (residue, [Action.logUnmarshalError])

/-- A key-value pair from an etcd range response or watch event
(`mvccpb.KeyValue`, restricted to the fields the code reads). -/
structure KeyValue where
  key : String
  value : StoredValue
deriving Repr, DecidableEq

/-- An etcd range (`Get ... WithPrefix`) response: the header revision and
the key-value list. -/
structure RangeResponse where
  revision : Int
  kvs : List KeyValue
deriving Repr, DecidableEq

/-- Watch event types `mvccpb.PUT` / `mvccpb.DELETE`. -/
inductive WatchEventType where
  | put
  | delete
deriving Repr, DecidableEq

/-- A watch event (`clientv3.Event`): its type, the current key-value and
the previous key-value (populated by etcd when `WithPrevKV` was requested;
the embedded code only reads the fields its branches mention). -/
structure WatchEvent where
  type : WatchEventType
  kv : KeyValue
  prevKv : KeyValue
deriving Repr, DecidableEq

/-- An opaque store/client error. -/
structure StoreError where
  msg : String
deriving Repr, DecidableEq

/-- The range request issued by a `discover.Client.Get(ctx, key, clientv3.WithPrefix())`
call: which key prefix it scans. -/
structure RangeRequest where
  key : String
  prefixed : Bool
deriving Repr, DecidableEq

/-- The watch request issued by a `discover.Client.Watch(...)` call:
key, prefix option, starting revision and whether `WithPrevKV` was set. -/
structure WatchRequest where
  key : String
  prefixed : Bool
  fromRevision : Int
  withPrevKV : Bool
deriving Repr, DecidableEq

/-- The etcd namespace configuration (`config.Conf.Etcd`): the pipeline
prefix and the killer prefix. -/
structure Config where
  pipelineNamespace : String
  killerNamespace : String
deriving Repr, DecidableEq

/-- The push events contained in an action trace, in order. -/
def pushedEvents (actions : List Action) : List Event :=
  actions.filterMap fun a =>
    match a with
    | .pushEvent e => some e
    | _ => none

/-- Body of the `WatchPipelines` snapshot loop (part_000 lines 37-47): unmarshal
the value, logging a failure, then push a `PUT` event unconditionally. -/
def snapshotStep (obj : KeyValue) : List Action :=
  let (pipeline, logs) := unmarshalInto obj.value
  logs ++ [Action.pushEvent ⟨PUT, pipeline⟩]

/-- The whole snapshot loop: each key-value of the range response in order. -/
def snapshotPhase (kvs : List KeyValue) : List Action :=
  kvs.flatMap snapshotStep

/-- Processing of one watch event in `WatchPipelines` (part_000 lines 51-75).
On `PUT`: unmarshal the new value (logging failure), then push one `PUT`
event per occurrence of the local node identifier in `pipeline.Nodes`.
On `DELETE`: unmarshal the previous value (logging failure), then push a
`DEL` event unconditionally. -/
def watchPipelinesStep (localId : String) (event : WatchEvent) : List Action :=
  match event.type with
  | .put =>
    let (pipeline, logs) := unmarshalInto event.kv.value
    logs ++ pipeline.nodes.flatMap fun node =>
      if node = localId then [Action.pushEvent ⟨PUT, pipeline⟩] else []
  | .delete =>
    let (pipeline, logs) := unmarshalInto event.prevKv.value
    logs ++ [Action.pushEvent ⟨DEL, pipeline⟩]

/-- The outcome of `WatchPipelines`: `panic(err)` on snapshot failure, or
a running watcher described by the snapshot `Get` request it issued, the
watch request it opened, and the action trace it produced over the given
(finite portion of the) watch stream. -/
inductive SyncOutcome where
  | fatal
  | running (getReq : RangeRequest) (watchReq : WatchRequest) (actions : List Action)
deriving Repr, DecidableEq

/-- Model of `WatchPipelines(local)` (part_000 lines 29-80).  The snapshot result
and the delivered watch notification batches are inputs; the per-batch
`time.Sleep` pacing is a pure delay and is not part of the trace. -/
def WatchPipelines (cfg : Config) (localId : String)
    (snapshot : Except StoreError RangeResponse)
    (watchBatches : List (List WatchEvent)) : SyncOutcome :=
  match snapshot with
  | .error _ => .fatal
  | .ok resp =>
    let curRevision := resp.revision + 1
    .running ⟨cfg.pipelineNamespace, true⟩
      ⟨cfg.pipelineNamespace, true, curRevision, true⟩
      (snapshotPhase resp.kvs ++
        watchBatches.flatMap fun batch => batch.flatMap (watchPipelinesStep localId))

/-- The watch request of a `SyncOutcome`, when the watcher got that far. -/
def SyncOutcome.watchRequest : SyncOutcome → Option WatchRequest
  | .fatal => none
  | .running _ w _ => some w

/-- Whether a `SyncOutcome` is the process-terminating `panic`. -/
def SyncOutcome.isFatal : SyncOutcome → Bool
  | .fatal => true
  | .running _ _ _ => false

/-- Bootstrap retry loop of `WatchKiller` (part_000 lines 85-93) over a
finite list of successive `Get` attempt results: a failed attempt is
swallowed (`continue`), the first successful response breaks the loop.
`none` means every attempt so far failed and the loop is still retrying. -/
def killerBootstrap : List (Except StoreError RangeResponse) → Option RangeResponse
  | [] => none
  | .error _ :: rest => killerBootstrap rest
  | .ok resp :: _ => some resp

/-- The range request issued by each iteration of the `WatchKiller` retry loop
(part_000 line 86): `Get(ctx, config.Conf.Etcd.Pipeline, clientv3.WithPrefix())`. -/
def killerSnapshotRequest (cfg : Config) : RangeRequest :=
  ⟨cfg.pipelineNamespace, true⟩

/-- Processing of one watch event in `WatchKiller` (part_000 lines 97-111): unmarshal the
current value `event.Kv.Value` (logging failure) — the previous value is
neither requested (`WithPrevKV` is absent) nor read — then log a
registration message on `PUT` and an offline message on `DELETE`, both
carrying the `Id` of the decoded record.  The registry updates are `TODO`
comments in the source: no state is mutated. -/
def watchKillerStep (event : WatchEvent) : List Action :=
  let (pipeline, logs) := unmarshalInto event.kv.value
  match event.type with
  | .put => logs ++ [Action.logNodeRegistered pipeline.id]
  | .delete => logs ++ [Action.logPipelineOffline pipeline.id]

/-- The outcome of `WatchKiller`: still stuck in the bootstrap retry loop,
or a running watcher described by the watch request it opened and the
action trace it produced. -/
inductive KillerOutcome where
  | retrying
  | running (getReq : RangeRequest) (watchReq : WatchRequest) (actions : List Action)
deriving Repr, DecidableEq

/-- Model of `WatchKiller()` (part_000 lines 82-113): retry the snapshot until one
succeeds, then watch the whole keyspace (`""` with `WithPrefix`, no
`WithPrevKV`) from the recorded revision plus one. -/
def WatchKiller (cfg : Config)
    (snapshotAttempts : List (Except StoreError RangeResponse))
    (watchBatches : List (List WatchEvent)) : KillerOutcome :=
  match killerBootstrap snapshotAttempts with
  | none => .retrying
  | some resp =>
    let curRevision := resp.revision + 1
    .running (killerSnapshotRequest cfg) ⟨"", true, curRevision, false⟩
      (watchBatches.flatMap fun batch => batch.flatMap watchKillerStep)

/-- Request body `KillPipelineRequest` (controllers/pipeline/main.go). -/
structure KillPipelineRequest where
  pipelineId : String
deriving Repr, DecidableEq

/-- The response `PostKiller` produces.  `nilLeaseDereference` models the
Go runtime fault when `Grant` fails: the error is only logged, `res` is
`nil`, and the subsequent `res.ID` dereference panics. -/
inductive KillerResponse where
  | internalServerError
  | validationError
  | success
  | nilLeaseDereference
deriving Repr, DecidableEq

/-- An etcd operation `PostKiller` performs: a lease grant with its TTL
(seconds), or a `Put` of a key/value bound to a lease. -/
inductive StoreOp where
  | grant (ttl : Int)
  | putWithLease (key : String) (value : String) (lease : Int)
deriving Repr, DecidableEq

/-- Model of `PostKiller` (controllers/pipeline/main.go lines 416-438).  Inputs:
the decoded request body (or a JSON error), whether `validate.Struct`
accepts it, and the responses of the store to the lease grant and the put.
Output: the HTTP-level response, the store operations issued, and the log
lines produced.  `Grant` and `Put` errors are logged, never returned; the
handler answers `Success` whenever it survives to the end. -/
def PostKiller (cfg : Config) (body : Except StoreError KillPipelineRequest)
    (validates : KillPipelineRequest → Bool)
    (grantResult : Except StoreError Int)
    (putResult : Except StoreError Unit) :
    KillerResponse × List StoreOp × List Action :=
  match body with
  | .error _ => (.internalServerError, [], [])
  | .ok params =>
    if validates params then
      match grantResult with
      | .error _ => (.nilLeaseDereference, [.grant 2], [Action.logStoreError])
      | .ok leaseId =>
        let key := cfg.killerNamespace ++ "/" ++ params.pipelineId
        match putResult with
        | .error _ =>
          (.success, [.grant 2, .putWithLease key "pipeline" leaseId],
            [Action.logStoreError])
        | .ok _ =>
          (.success, [.grant 2, .putWithLease key "pipeline" leaseId], [])
    else
      (.validationError, [], [])

end Ects

namespace Ects

/-! ### Helper lemmas -/

/-- Extracting pushes distributes over trace concatenation. -/
theorem pushedEvents_append (a b : List Action) :
    pushedEvents (a ++ b) = pushedEvents a ++ pushedEvents b :=
  List.filterMap_append a b _

/-- The log lines a failed unmarshal produces contain no queue push. -/
theorem pushedEvents_unmarshalInto (v : StoredValue) :
    pushedEvents (unmarshalInto v).2 = [] := by
  cases v <;> rfl

/-- The snapshot loop pushes, per key, exactly the `PUT` event carrying
whatever `unmarshalInto` produced for the value of that key. -/
theorem pushedEvents_snapshotPhase (kvs : List KeyValue) :
    pushedEvents (snapshotPhase kvs) =
      kvs.map fun kv => ⟨PUT, (unmarshalInto kv.value).1⟩ := by
  induction kvs with
  | nil => rfl
  | cons kv rest ih =>
    simp only [snapshotPhase, List.flatMap_cons, snapshotStep] at *
    cases kv with
    | mk key value =>
      cases value with
      | valid p => simpa [pushedEvents, unmarshalInto] using ih
      | invalid residue => simpa [pushedEvents, unmarshalInto] using ih

/-- The membership scan of the put branch pushes one copy of the event per
occurrence of the local identifier in the node list. -/
theorem pushedEvents_membershipScan (nodes : List String) (localId : String)
    (e : Event) :
    pushedEvents (nodes.flatMap fun node =>
        if node = localId then [Action.pushEvent e] else []) =
      List.replicate (nodes.count localId) e := by
  induction nodes with
  | nil => rfl
  | cons n rest ih =>
    rw [List.flatMap_cons, pushedEvents_append, ih, List.count_cons]
    by_cases h : n = localId
    · simp [h, pushedEvents, List.replicate_succ]
    · simp [h, pushedEvents]

/-- When the local identifier is absent from the node list, the membership
scan yields nothing at all. -/
theorem membershipScan_eq_nil (nodes : List String) (localId : String)
    (e : Event) (h : localId ∉ nodes) :
    (nodes.flatMap fun node =>
      if node = localId then [Action.pushEvent e] else []) = [] := by
  induction nodes with
  | nil => rfl
  | cons n rest ih =>
    simp only [List.mem_cons, not_or] at h
    rw [List.flatMap_cons, if_neg (fun hn => h.1 hn.symm), List.nil_append,
      ih h.2]

/-- A run of failed attempts alone leaves the killer bootstrap retrying. -/
theorem killerBootstrap_all_failures (failures : List StoreError) :
    killerBootstrap (failures.map Except.error) = none := by
  induction failures with
  | nil => rfl
  | cons e rest ih => simpa [killerBootstrap] using ih

/-- The killer bootstrap swallows any run of failures and returns the first
successful response. -/
theorem killerBootstrap_first_ok (failures : List StoreError)
    (resp : RangeResponse) (rest : List (Except StoreError RangeResponse)) :
    killerBootstrap (failures.map Except.error ++ Except.ok resp :: rest) =
      some resp := by
  induction failures with
  | nil => rfl
  | cons e fs ih => simpa [killerBootstrap] using ih

/-! ### Claim theorems -/

/-- C1: during the snapshot phase of `WatchPipelines`, every key returned
by the prefix read produces exactly one `PUT` event on the scheduler queue
(one per key, in order, and nothing but `PUT`s).  `snapshotPhase` takes no
local-node identifier at all, so the `Nodes` list of a pipeline — present,
absent or empty — cannot influence this. -/
theorem snapshot_one_put_event_per_key (kvs : List KeyValue) :
    pushedEvents (snapshotPhase kvs) =
      kvs.map (fun kv => ⟨PUT, (unmarshalInto kv.value).1⟩) ∧
    (pushedEvents (snapshotPhase kvs)).length = kvs.length ∧
    ∀ e ∈ pushedEvents (snapshotPhase kvs), e.type = PUT := by
  refine ⟨pushedEvents_snapshotPhase kvs, ?_, ?_⟩
  · rw [pushedEvents_snapshotPhase]; exact List.length_map kvs _
  · rw [pushedEvents_snapshotPhase]
    intro e he
    obtain ⟨kv, _, rfl⟩ := List.mem_map.mp he
    rfl

/-- C1 witness: the universally quantified membership statement of
`snapshot_one_put_event_per_key` evaluated on a concrete two-key snapshot. -/
theorem snapshot_one_put_event_per_key_witness :
    pushedEvents (snapshotPhase
        [⟨"p/A", StoredValue.valid ⟨"A", ["n1"]⟩⟩,
         ⟨"p/B", StoredValue.valid ⟨"B", []⟩⟩]) =
      [⟨PUT, ⟨"A", ["n1"]⟩⟩, ⟨PUT, ⟨"B", []⟩⟩] ∧
    (pushedEvents (snapshotPhase
        [⟨"p/A", StoredValue.valid ⟨"A", ["n1"]⟩⟩,
         ⟨"p/B", StoredValue.valid ⟨"B", []⟩⟩])).length = 2 :=
  ⟨rfl, (snapshot_one_put_event_per_key
    [⟨"p/A", StoredValue.valid ⟨"A", ["n1"]⟩⟩,
     ⟨"p/B", StoredValue.valid ⟨"B", []⟩⟩]).2.1⟩

/-- C2: in the streaming phase, a put-type event whose pipeline does not
list the local node produces no action at all, while a delete-type event —
any delete-type event, no membership filter — produces exactly one `DEL`
event built from the previous value. -/
theorem watch_membership_filter_asymmetry (localId : String)
    (kv prev : KeyValue) (p : Pipeline)
    (hval : kv.value = StoredValue.valid p) (hmem : localId ∉ p.nodes) :
    watchPipelinesStep localId ⟨WatchEventType.put, kv, prev⟩ = [] ∧
    ∀ dkv dprev : KeyValue,
      pushedEvents (watchPipelinesStep localId
          ⟨WatchEventType.delete, dkv, dprev⟩) =
        [⟨DEL, (unmarshalInto dprev.value).1⟩] := by
  constructor
  · show (unmarshalInto kv.value).2 ++ _ = []
    rw [hval]
    exact membershipScan_eq_nil p.nodes localId _ hmem
  · intro dkv dprev
    show pushedEvents ((unmarshalInto dprev.value).2 ++ _) = _
    rw [pushedEvents_append, pushedEvents_unmarshalInto, List.nil_append]
    rfl

/-- C2 witness: node `n1`, pipeline `A` bound to `n2` only — the put event
produces nothing. -/
theorem watch_membership_filter_asymmetry_witness :
    "n1" ∉ (Pipeline.mk "A" ["n2"]).nodes ∧
    watchPipelinesStep "n1"
      ⟨WatchEventType.put, ⟨"k", StoredValue.valid ⟨"A", ["n2"]⟩⟩,
        ⟨"k", StoredValue.valid ⟨"A", ["n2"]⟩⟩⟩ = [] :=
  ⟨by decide,
    (watch_membership_filter_asymmetry "n1"
      ⟨"k", StoredValue.valid ⟨"A", ["n2"]⟩⟩
      ⟨"k", StoredValue.valid ⟨"A", ["n2"]⟩⟩
      ⟨"A", ["n2"]⟩ rfl (by decide)).1⟩

/-- C3: after a successful snapshot whose response header carries revision
`R`, `WatchPipelines` opens its watch at revision `R + 1` with previous-value
delivery (`WithPrevKV`) requested, over the pipeline namespace. -/
theorem watch_opens_at_next_revision (cfg : Config) (localId : String)
    (resp : RangeResponse) (batches : List (List WatchEvent)) :
    (WatchPipelines cfg localId (Except.ok resp) batches).watchRequest =
      some ⟨cfg.pipelineNamespace, true, resp.revision + 1, true⟩ := rfl

/-- C4 counterexample: a snapshot entry whose value fails to deserialize is
not skipped — the loop logs the failure and still pushes one `PUT` event
(carrying the zero-valued pipeline the failed decode left behind), where the
claim demands that no event be pushed for it. -/
theorem snapshot_invalid_entry_still_pushes :
    snapshotStep ⟨"k", StoredValue.invalid Pipeline.zero⟩ =
      [Action.logUnmarshalError, Action.pushEvent ⟨PUT, Pipeline.zero⟩] ∧
    (pushedEvents (snapshotStep ⟨"k", StoredValue.invalid Pipeline.zero⟩)).length
      = 1 :=
  ⟨rfl, rfl⟩

/-- C4 amended: a deserialization failure is logged, never fatal, and the
loop continues — but the offending entry is not skipped: the snapshot loop
and the delete branch still push their event, carrying the residue the
failed decode left in the `Pipeline` variable (the Go zero value when
nothing was decoded). -/
theorem deserialization_failure_logged_nonfatal_but_pushed (cfg : Config)
    (localId k : String) (r : Pipeline) (kv : KeyValue)
    (rest : List KeyValue) (resp : RangeResponse)
    (batches : List (List WatchEvent)) :
    snapshotStep ⟨k, StoredValue.invalid r⟩ =
      [Action.logUnmarshalError, Action.pushEvent ⟨PUT, r⟩] ∧
    snapshotPhase (⟨k, StoredValue.invalid r⟩ :: rest) =
      Action.logUnmarshalError :: Action.pushEvent ⟨PUT, r⟩ ::
        snapshotPhase rest ∧
    watchPipelinesStep localId
        ⟨WatchEventType.delete, kv, ⟨k, StoredValue.invalid r⟩⟩ =
      [Action.logUnmarshalError, Action.pushEvent ⟨DEL, r⟩] ∧
    (WatchPipelines cfg localId (Except.ok resp) batches).isFatal = false := by
  refine ⟨rfl, ?_, rfl, rfl⟩
  rw [snapshotPhase, List.flatMap_cons]
  rfl

/-- C5: a failed bootstrap snapshot makes `WatchPipelines` terminate the
process (`panic`), while `WatchKiller` swallows any finite run of identical
failures — staying in its retry loop while they last — and proceeds with the
first successful response. -/
theorem bootstrap_fatal_for_sync_retried_for_killer (cfg : Config)
    (localId : String) (e : StoreError) (batches : List (List WatchEvent))
    (failures : List StoreError) (resp : RangeResponse)
    (rest : List (Except StoreError RangeResponse)) :
    WatchPipelines cfg localId (Except.error e) batches = SyncOutcome.fatal ∧
    WatchKiller cfg (failures.map Except.error) batches =
      KillerOutcome.retrying ∧
    killerBootstrap (failures.map Except.error ++ Except.ok resp :: rest) =
      some resp := by
  refine ⟨rfl, ?_, killerBootstrap_first_ok failures resp rest⟩
  rw [WatchKiller, killerBootstrap_all_failures]

/-- C6 counterexample: with a valid request, a granted lease and a store
that rejects the write, `PostKiller` still answers success — the write
failure is only logged, where the claim demands a `StoreUnavailable`
failure be reported to the caller. -/
theorem postKiller_write_failure_still_succeeds :
    (PostKiller ⟨"pipelines", "killer"⟩
        (Except.ok ⟨"fd2f25b0-6cd6-44e2-a377-af35d8f86e4e"⟩)
        (fun _ => true) (Except.ok 7)
        (Except.error ⟨"etcdserver: request timed out"⟩)).1 =
      KillerResponse.success ∧
    (PostKiller ⟨"pipelines", "killer"⟩
        (Except.ok ⟨"fd2f25b0-6cd6-44e2-a377-af35d8f86e4e"⟩)
        (fun _ => true) (Except.ok 7)
        (Except.error ⟨"etcdserver: request timed out"⟩)).2.2 =
      [Action.logStoreError] :=
  ⟨rfl, rfl⟩

/-- C6 amended: store-side failures are never reported to the caller as a
failure.  A write failure is logged and the handler still answers success;
a lease-grant failure is logged and the handler then dereferences the nil
grant response (a runtime fault, not a `StoreUnavailable` response). -/
theorem postKiller_store_failures_not_reported (cfg : Config)
    (params : KillPipelineRequest) (validates : KillPipelineRequest → Bool)
    (hv : validates params = true) (leaseId : Int) (e1 e2 : StoreError)
    (putResult : Except StoreError Unit) :
    (PostKiller cfg (Except.ok params) validates (Except.ok leaseId)
        (Except.error e1)).1 = KillerResponse.success ∧
    (PostKiller cfg (Except.ok params) validates (Except.ok leaseId)
        (Except.error e1)).2.2 = [Action.logStoreError] ∧
    (PostKiller cfg (Except.ok params) validates (Except.error e2)
        putResult).1 = KillerResponse.nilLeaseDereference := by
  refine ⟨?_, ?_, ?_⟩ <;> simp [PostKiller, hv]

/-- C6 witness: `postKiller_store_failures_not_reported` at a concrete
request and store behavior. -/
theorem postKiller_store_failures_not_reported_witness :
    (fun _ : KillPipelineRequest => true)
        (⟨"fd2f25b0-6cd6-44e2-a377-af35d8f86e4e"⟩ : KillPipelineRequest)
      = true ∧
    (PostKiller ⟨"pipelines", "killer"⟩
        (Except.ok ⟨"fd2f25b0-6cd6-44e2-a377-af35d8f86e4e"⟩)
        (fun _ => true) (Except.error ⟨"grant failed"⟩)
        (Except.ok ())).1 = KillerResponse.nilLeaseDereference :=
  ⟨rfl,
    (postKiller_store_failures_not_reported ⟨"pipelines", "killer"⟩
      ⟨"fd2f25b0-6cd6-44e2-a377-af35d8f86e4e"⟩ (fun _ => true) rfl 7
      ⟨"write failed"⟩ ⟨"grant failed"⟩ (Except.ok ())).2.2⟩

/-- C7: on the happy path `PostKiller` grants a lease with TTL 2 and writes
the marker key `killerNamespace ++ "/" ++ pipelineId` with value
`"pipeline"` bound to the granted lease — and performs no other store
operation. -/
theorem postKiller_lease_ttl_two_and_marker_key (cfg : Config)
    (params : KillPipelineRequest) (validates : KillPipelineRequest → Bool)
    (hv : validates params = true) (leaseId : Int)
    (putResult : Except StoreError Unit) :
    (PostKiller cfg (Except.ok params) validates (Except.ok leaseId)
        putResult).2.1 =
      [StoreOp.grant 2,
       StoreOp.putWithLease (cfg.killerNamespace ++ "/" ++ params.pipelineId)
         "pipeline" leaseId] := by
  cases putResult <;> simp [PostKiller, hv]

/-- C7 witness: `postKiller_lease_ttl_two_and_marker_key` on a concrete
request against namespace `killer`. -/
theorem postKiller_lease_ttl_two_and_marker_key_witness :
    (fun _ : KillPipelineRequest => true)
        (⟨"fd2f25b0-6cd6-44e2-a377-af35d8f86e4e"⟩ : KillPipelineRequest)
      = true ∧
    (PostKiller ⟨"pipelines", "killer"⟩
        (Except.ok ⟨"fd2f25b0-6cd6-44e2-a377-af35d8f86e4e"⟩)
        (fun _ => true) (Except.ok 7) (Except.ok ())).2.1 =
      [StoreOp.grant 2,
       StoreOp.putWithLease "killer/fd2f25b0-6cd6-44e2-a377-af35d8f86e4e"
         "pipeline" 7] :=
  ⟨rfl,
    postKiller_lease_ttl_two_and_marker_key ⟨"pipelines", "killer"⟩
      ⟨"fd2f25b0-6cd6-44e2-a377-af35d8f86e4e"⟩ (fun _ => true) rfl 7
      (Except.ok ())⟩

/-- C8 counterexample: on a delete-type change whose current value decodes
to pipeline `A` and whose previous value decodes to pipeline `B`, the
Kill-Signal Watcher logs `A` offline — it deserializes the current value,
not the previous one as the claim states — and performs no registry
removal, only the log line. -/
theorem watchKiller_delete_reads_current_value :
    watchKillerStep
        ⟨WatchEventType.delete, ⟨"k", StoredValue.valid ⟨"A", []⟩⟩,
          ⟨"k", StoredValue.valid ⟨"B", []⟩⟩⟩ =
      [Action.logPipelineOffline "A"] := rfl

/-- C8 amended: for each delivered change the watcher deserializes the
current value — also for deletions, whose previous value is never read (the
trace does not depend on it) — and maintains no registry: it only logs a
node-registered message with the decoded identifier on a put-type change
and a pipeline-offline message on a delete-type change; the registry
updates are unimplemented `TODO`s in the source. -/
theorem watchKiller_logs_only_from_current_value (t : WatchEventType)
    (kv prev1 prev2 : KeyValue) :
    watchKillerStep ⟨t, kv, prev1⟩ = watchKillerStep ⟨t, kv, prev2⟩ ∧
    pushedEvents (watchKillerStep ⟨t, kv, prev1⟩) = [] ∧
    watchKillerStep ⟨t, kv, prev1⟩ =
      (unmarshalInto kv.value).2 ++
        [match t with
         | WatchEventType.put =>
            Action.logNodeRegistered (unmarshalInto kv.value).1.id
         | WatchEventType.delete =>
            Action.logPipelineOffline (unmarshalInto kv.value).1.id] := by
  refine ⟨rfl, ?_, ?_⟩
  · cases t <;>
      · rw [watchKillerStep]
        rw [pushedEvents_append, pushedEvents_unmarshalInto]
        rfl
  · cases t <;> rfl

/-- C9 counterexample: with the pipeline namespace configured as
`/ects/pipeline`, the bootstrap `Get` of the retry loop scans
`/ects/pipeline`, not the full keyspace (whose prefix is the empty key) as
the claim states. -/
theorem watchKiller_bootstrap_scans_pipeline_namespace :
    killerSnapshotRequest ⟨"/ects/pipeline", "/ects/killer"⟩ =
      ⟨"/ects/pipeline", true⟩ ∧
    (killerSnapshotRequest ⟨"/ects/pipeline", "/ects/killer"⟩).key.length
      = 14 :=
  ⟨rfl, rfl⟩

/-- C9 amended: the retry loop performs its bootstrap prefix snapshot read
over the *pipeline namespace* (not the full keyspace), records its revision
`R`, and then opens its watch over the entire keyspace (empty key with
prefix, no previous-value delivery) starting at revision `R + 1`. -/
theorem watchKiller_snapshot_scoped_watch_unscoped (cfg : Config)
    (failures : List StoreError) (resp : RangeResponse)
    (rest : List (Except StoreError RangeResponse))
    (batches : List (List WatchEvent)) :
    killerSnapshotRequest cfg = ⟨cfg.pipelineNamespace, true⟩ ∧
    WatchKiller cfg (failures.map Except.error ++ Except.ok resp :: rest)
        batches =
      KillerOutcome.running ⟨cfg.pipelineNamespace, true⟩
        ⟨"", true, resp.revision + 1, false⟩
        (batches.flatMap fun batch => batch.flatMap watchKillerStep) := by
  refine ⟨rfl, ?_⟩
  rw [WatchKiller, killerBootstrap_first_ok]
  rfl

/-- C10: a put-type watch event for a valid pipeline pushes one `PUT` event
per occurrence of the local node identifier in its `Nodes` list: when the
identifier appears `k` times with `k > 1`, `k` events are pushed, not one. -/
theorem watch_put_pushes_per_occurrence (localId : String)
    (kv prev : KeyValue) (p : Pipeline) (k : Nat)
    (hval : kv.value = StoredValue.valid p)
    (hcount : p.nodes.count localId = k) (hk : 1 < k) :
    pushedEvents (watchPipelinesStep localId
        ⟨WatchEventType.put, kv, prev⟩) =
      List.replicate k ⟨PUT, p⟩ ∧
    (pushedEvents (watchPipelinesStep localId
        ⟨WatchEventType.put, kv, prev⟩)).length = k ∧
    k ≠ 1 := by
  have hmain : pushedEvents (watchPipelinesStep localId
      ⟨WatchEventType.put, kv, prev⟩) = List.replicate k ⟨PUT, p⟩ := by
    show pushedEvents ((unmarshalInto kv.value).2 ++ _) = _
    rw [hval]
    show pushedEvents ([] ++ _) = _
    rw [List.nil_append, pushedEvents_membershipScan, hcount]
  exact ⟨hmain, by rw [hmain]; exact List.length_replicate k _,
    Nat.ne_of_gt hk⟩

/-- C10 witness: node `n1` listed twice in the `Nodes` of pipeline `A` —
the put event is pushed twice. -/
theorem watch_put_pushes_per_occurrence_witness :
    (Pipeline.mk "A" ["n1", "n1"]).nodes.count "n1" = 2 ∧ 1 < 2 ∧
    pushedEvents (watchPipelinesStep "n1"
        ⟨WatchEventType.put, ⟨"k", StoredValue.valid ⟨"A", ["n1", "n1"]⟩⟩,
          ⟨"k", StoredValue.valid ⟨"A", ["n1", "n1"]⟩⟩⟩) =
      List.replicate 2 ⟨PUT, ⟨"A", ["n1", "n1"]⟩⟩ :=
  ⟨by decide, by decide,
    (watch_put_pushes_per_occurrence "n1"
      ⟨"k", StoredValue.valid ⟨"A", ["n1", "n1"]⟩⟩
      ⟨"k", StoredValue.valid ⟨"A", ["n1", "n1"]⟩⟩
      ⟨"A", ["n1", "n1"]⟩ 2 rfl (by decide) (by decide)).1⟩

end Ects
